import Mathlib

/-!
Shallow embedding of the kubesh tool: the configuration defaulting logic
(config/config.go) and the node-shell pod lifecycle (nodeshell/nodeshell.go),
together with theorems checking the specification claims against it.

Cluster interactions are modelled by explicit result values supplied to the
embedded control flow: a get call returns found / not-found / transport error,
a create call returns ok / already-exists / transport error, and so on, which
is exactly the information the Go code branches on (err == nil,
kerrors.IsNotFound(err)).
-/

namespace Kubesh

/-! ### Configuration (config/config.go) -/

def defaultImage : String := "uhub.service.ucloud.cn/library/alpine:latest"

def defaultPodNamespace : String := "kube-system"

def defaultPodName : String := "node-shell-{node}"

def defaultPauseCommand : List String := ["sleep", "infinity"]

def defaultShellCommand : List String := ["bash"]

/-- The `Config` struct of config/config.go (field names as in the source). -/
structure Config where
  Image : String
  PauseCommand : List String
  ShellCommand : List String
  PodNamespace : String
  PodName : String
deriving DecidableEq, Repr

/-- Validation errors.  `Config.Validate` in the source only ever returns
`nil`, so this error type has no inhabitant. -/
inductive ValidationError
deriving DecidableEq

/-- Function `Default()` of config/config.go. -/
def Config.Default : Config :=
  { Image := defaultImage
    PauseCommand := defaultPauseCommand
    ShellCommand := defaultShellCommand
    PodNamespace := defaultPodNamespace
    PodName := defaultPodName }

/-- Method `(*Config).Validate` of config/config.go: fills each empty field with its
built-in default, one field at a time, and always returns without error. -/
def Config.Validate (c : Config) : Except ValidationError Config :=
  let c1 := if c.Image = "" then { c with Image := defaultImage } else c
  let c2 := if c1.PauseCommand = [] then { c1 with PauseCommand := defaultPauseCommand } else c1
  let c3 := if c2.ShellCommand = [] then { c2 with ShellCommand := defaultShellCommand } else c2
  let c4 := if c3.PodNamespace = "" then { c3 with PodNamespace := defaultPodNamespace } else c3
  let c5 := if c4.PodName = "" then { c4 with PodName := defaultPodName } else c4
  .ok c5

/-- The Go zero value of the `Config` struct, which is what
`yaml.Unmarshal` produces from empty input. -/
def Config.zeroValue : Config :=
  { Image := ""
    PauseCommand := []
    ShellCommand := []
    PodNamespace := ""
    PodName := "" }

/-- Outcome of the `os.ReadFile(configPath)` call in `Load`. -/
inductive ReadFileResult
  | notExist
  | readErr
  | content (data : String)
deriving DecidableEq

inductive LoadError
  | readError
  | parseError
  | validateError (e : ValidationError)
deriving DecidableEq

/-- Function `Load` of config/config.go, from the `os.ReadFile` call onward (the
preceding home-directory path resolution only chooses which file to read).
`parse` abstracts the external `yaml.Unmarshal` call: `none` is a parse
error, `some cfg` the decoded struct. -/
def Load (read : ReadFileResult) (parse : String → Option Config) :
    Except LoadError Config :=
  match read with
  | .notExist => .ok Config.Default
  | .readErr => .error .readError
  | .content data =>
    match parse data with
    | none => .error .parseError
    | some cfg =>
      match cfg.Validate with
      | .error e => .error (.validateError e)
      | .ok c => .ok c

/-! ### Pod name substitution (nodeshell.go, `New`)

`New` computes `podName := strings.ReplaceAll(config.PodName, "{node}", node)`.
`replaceNode` is the shallow embedding of that call: leftmost-first,
non-overlapping replacement of the literal pattern `{node}`, continuing after
the substituted text, which is the semantics of Go's `strings.ReplaceAll`
for a non-empty pattern. -/

def replaceNode (rep : List Char) : List Char → List Char
  | '{' :: 'n' :: 'o' :: 'd' :: 'e' :: '}' :: rest => rep ++ replaceNode rep rest
  | c :: rest => c :: replaceNode rep rest
  | [] => []

/-- The pod name computed by `New` in nodeshell.go. -/
def newPodName (cfg : Config) (node : String) : String :=
  String.mk (replaceNode node.toList cfg.PodName.toList)

/-- Spec-side description of the substitution, written independently of
`replaceNode`: cut the template at every occurrence of `{node}`
(`splitNode`), then join the pieces with the node name (`joinWith`).
"Every occurrence of the substring replaced by the literal node name." -/
def splitNode : List Char → List (List Char)
  | '{' :: 'n' :: 'o' :: 'd' :: 'e' :: '}' :: rest => [] :: splitNode rest
  | c :: rest =>
    match splitNode rest with
    | chunk :: more => (c :: chunk) :: more
    | [] => [[c]]
  | [] => [[]]

def joinWith (sep : List Char) : List (List Char) → List Char
  | [] => []
  | [x] => x
  | x :: xs => x ++ sep ++ joinWith sep xs

/-- Does the string contain the `{node}` placeholder?  (Used only to state
the claim about templates without the placeholder.) -/
def containsNodePat : List Char → Bool
  | '{' :: 'n' :: 'o' :: 'd' :: 'e' :: '}' :: _ => true
  | _ :: rest => containsNodePat rest
  | [] => false

/-! ### Pod lifecycle (nodeshell.go) -/

def containerName : String := "node-shell"

/-- Constant `checkPodStatusInterval` is one second. -/
def checkPodStatusIntervalSeconds : Nat := 1

/-- Constant `checkPodStatusTimeout` is one minute. -/
def checkPodStatusTimeoutSeconds : Nat := 60

def closeMaxRetry : Nat := 5

/-- Constant `closeRetryTime` is three seconds. -/
def closeRetryTimeSeconds : Nat := 3

/-- Outcome of a cluster get call, as the Go code distinguishes it:
`err == nil` (found), `kerrors.IsNotFound(err)` (notFound), or any other
error (transportErr). -/
inductive GetResult (α : Type)
  | found (x : α)
  | notFound
  | transportErr
deriving DecidableEq

/-- Outcome of the pod create call.  The Go code only tests `err != nil`,
but we keep the already-exists error distinguishable to state the race
claims. -/
inductive CreateResult
  | ok
  | alreadyExists
  | transportErr
deriving DecidableEq

inductive StartError
  | nodeNotFound
  | getNodeError
  | namespaceNotFound
  | getNamespaceError
  | getPodError
  | podCreateError
  | pollGetPodError
  | startupTimeout
deriving DecidableEq

/-- A pod phase is the string in `pod.Status.Phase`; the code only ever
compares it to `v1.PodRunning = "Running"`. -/
def phaseRunning : String := "Running"

/-- The polling loop at the end of `start` (nodeshell.go lines 97-119),
instrumented with the number of get-pod calls it issues.  `poll k` is what
the get-pod call at the k-th tick returns; `fuel` is the number of ticks the
1-second ticker delivers before the 60-second timer fires, after which the
loop returns the timeout error.  Per tick: a transport error is fatal,
not-found continues, phase `Running` returns success, any other phase waits
for the next tick. -/
def pollPod (poll : Nat → GetResult String) (i : Nat) :
    Nat → Except StartError Unit × Nat
  | 0 => (.error .startupTimeout, 0)
  | fuel + 1 =>
    match poll i with
    | .transportErr => (.error .pollGetPodError, 1)
    | .notFound =>
      let r := pollPod poll (i + 1) fuel
      (r.1, r.2 + 1)
    | .found ph =>
      if ph = phaseRunning then (.ok (), 1)
      else
        let r := pollPod poll (i + 1) fuel
        (r.1, r.2 + 1)

/-- The cluster responses observed by one run of `start`: the node get, the
namespace get, the initial pod get, the pod create (only consulted when the
initial get said not-found), and the polling results. -/
structure ClusterEnv where
  nodeRes : GetResult Unit
  nsRes : GetResult Unit
  podRes : GetResult String
  createRes : CreateResult
  poll : Nat → GetResult String

/-- Method `(*NodeShell).start` of nodeshell.go, instrumented with the number of
pod create calls it issues (second component).  Mirrors the source: check
node, check namespace, get the pod; if found and `Running` return at once;
if found otherwise skip creation and poll; if not found create the pod
(any create error, already-exists included, is fatal) and poll; any other
get error is fatal. -/
def startRun (env : ClusterEnv) (fuel : Nat) : Except StartError Unit × Nat :=
  match env.nodeRes with
  | .notFound => (.error .nodeNotFound, 0)
  | .transportErr => (.error .getNodeError, 0)
  | .found _ =>
    match env.nsRes with
    | .notFound => (.error .namespaceNotFound, 0)
    | .transportErr => (.error .getNamespaceError, 0)
    | .found _ =>
      match env.podRes with
      | .transportErr => (.error .getPodError, 0)
      | .found ph =>
        if ph = phaseRunning then (.ok (), 0)
        else ((pollPod env.poll 0 fuel).1, 0)
      | .notFound =>
        match env.createRes with
        | .ok => ((pollPod env.poll 0 fuel).1, 1)
        | .alreadyExists => (.error .podCreateError, 1)
        | .transportErr => (.error .podCreateError, 1)

/-! ### Pod specification (nodeshell.go, `buildPod`) -/

structure SecurityContext where
  Privileged : Bool
deriving DecidableEq, Repr

structure Container where
  Name : String
  Image : String
  Command : List String
  Args : List String
  SecContext : SecurityContext
deriving DecidableEq, Repr

structure PodSpec where
  NodeName : String
  HostNetwork : Bool
  HostPID : Bool
  HostIPC : Bool
  Containers : List Container
deriving DecidableEq, Repr

structure ObjectMeta where
  Name : String
  Namespace : String
  Labels : List (String × String)
deriving DecidableEq, Repr

structure Pod where
  metadata : ObjectMeta
  spec : PodSpec
deriving DecidableEq, Repr

/-- Method `(*NodeShell).buildPod` of nodeshell.go. -/
def buildPod (node podName : String) (cfg : Config) : Pod :=
  { metadata :=
      { Name := podName
        Namespace := cfg.PodNamespace
        Labels := [("app", "node-shell"), ("owner", "kubesh")] }
    spec :=
      { NodeName := node
        HostNetwork := true
        HostPID := true
        HostIPC := true
        Containers :=
          [{ Name := containerName
             Image := cfg.Image
             Command := ["nsenter"]
             Args := ["-t", "1", "-m", "-u", "-i", "-n"] ++ cfg.PauseCommand
             SecContext := { Privileged := true } }] } }

/-! ### Teardown (nodeshell.go, `Close` and `RetryClose`) -/

/-- Outcome of the pod delete call. -/
inductive DeleteResult
  | ok
  | notFound
  | transportErr
deriving DecidableEq

inductive CloseError
  | deleteError
deriving DecidableEq

/-- Method `(*NodeShell).Close`: one delete call; not-found counts as success;
any other error is returned. -/
def Close (d : DeleteResult) : Option CloseError :=
  match d with
  | .ok => none
  | .notFound => none
  | .transportErr => some .deleteError

/-- Method `(*NodeShell).RetryClose`, instrumented: returns the number of delete
attempts made and the number of 3-second sleeps performed.  `del i` is the
outcome of the delete call in the i-th loop iteration.  The loop runs at
most `fuel` iterations; each failing attempt sleeps (and warns) before the
next iteration; a successful attempt returns at once. -/
def retryCloseAux (del : Nat → DeleteResult) (i : Nat) : Nat → Nat × Nat
  | 0 => (0, 0)
  | fuel + 1 =>
    match Close (del i) with
    | none => (1, 0)
    | some _ =>
      let r := retryCloseAux del (i + 1) fuel
      (r.1 + 1, r.2 + 1)

def RetryClose (del : Nat → DeleteResult) : Nat × Nat :=
  retryCloseAux del 0 closeMaxRetry

/-- A poll result the loop treats as "keep waiting": pod not found, or
found in a phase other than `Running`. -/
def transientRes (r : GetResult String) : Prop :=
  r = .notFound ∨ ∃ ph, r = .found ph ∧ ph ≠ phaseRunning

/-! ### Helper lemmas -/

/-- Rewriting `Validate` as one record: each field defaults independently. -/
theorem validate_eq (c : Config) :
    Config.Validate c = .ok
      { Image := if c.Image = "" then defaultImage else c.Image
        PauseCommand := if c.PauseCommand = [] then defaultPauseCommand else c.PauseCommand
        ShellCommand := if c.ShellCommand = [] then defaultShellCommand else c.ShellCommand
        PodNamespace := if c.PodNamespace = "" then defaultPodNamespace else c.PodNamespace
        PodName := if c.PodName = "" then defaultPodName else c.PodName } := by
  obtain ⟨i, pc, sc, ns, pn⟩ := c
  by_cases h1 : i = "" <;> by_cases h2 : pc = ([] : List String) <;>
    by_cases h3 : sc = ([] : List String) <;> by_cases h4 : ns = "" <;>
    by_cases h5 : pn = "" <;>
    simp [Config.Validate, h1, h2, h3, h4, h5]

theorem splitNode_ne_nil (s : List Char) : splitNode s ≠ [] := by
  induction s using splitNode.induct with
  | case1 rest ih => simp [splitNode]
  | case2 c rest hne chunk more heq ih => simp [splitNode, heq]
  | case3 c rest hne heq ih => exact absurd heq ih
  | case4 => simp [splitNode]

theorem joinWith_nil_cons (sep x : List Char) (xs : List (List Char)) :
    joinWith sep ([] :: x :: xs) = sep ++ joinWith sep (x :: xs) := by
  cases xs <;> simp [joinWith]

theorem joinWith_cons_head (sep chunk : List Char) (c : Char)
    (more : List (List Char)) :
    joinWith sep ((c :: chunk) :: more) = c :: joinWith sep (chunk :: more) := by
  cases more <;> simp [joinWith]

/-- The source's leftmost scan-and-replace equals the spec-side
cut-at-every-occurrence-and-join description. -/
theorem replaceNode_eq_spec (rep : List Char) (s : List Char) :
    replaceNode rep s = joinWith rep (splitNode s) := by
  induction s using splitNode.induct with
  | case1 rest ih =>
    obtain ⟨x, xs, hx⟩ : ∃ x xs, splitNode rest = x :: xs := by
      cases h : splitNode rest with
      | nil => exact absurd h (splitNode_ne_nil rest)
      | cons a b => exact ⟨a, b, rfl⟩
    rw [show replaceNode rep ('{' :: 'n' :: 'o' :: 'd' :: 'e' :: '}' :: rest)
          = rep ++ replaceNode rep rest from rfl,
        show splitNode ('{' :: 'n' :: 'o' :: 'd' :: 'e' :: '}' :: rest)
          = [] :: splitNode rest from rfl,
        hx, joinWith_nil_cons, ih, hx]
  | case2 c rest hne chunk more heq ih =>
    have hL : replaceNode rep (c :: rest) = c :: replaceNode rep rest := by
      rw [replaceNode.eq_def]
      split
      · rename_i rest1 heq1
        injection heq1 with e1 e2
        exact (hne rest1 e1 e2).elim
      · rename_i c2 rest2 hnope heq2
        injection heq2 with e1 e2
        subst e1
        subst e2
        rfl
      · rename_i heq3
        simp at heq3
    have hR : splitNode (c :: rest) = (c :: chunk) :: more := by
      rw [splitNode.eq_def]
      split
      · rename_i rest1 heq1
        injection heq1 with e1 e2
        exact (hne rest1 e1 e2).elim
      · rename_i c2 rest2 hnope heq2
        injection heq2 with e1 e2
        subst e1
        subst e2
        rw [heq]
      · rename_i heq3
        simp at heq3
    rw [hL, hR, joinWith_cons_head, ← heq, ← ih]
  | case3 c rest hne heq ih => exact absurd heq (splitNode_ne_nil rest)
  | case4 => rfl

/-! ### Claim theorems -/

/-- C7: the session's pod name is the template with every occurrence of the
substring `{node}` replaced by the literal node name (stated as equality
with the independent cut-and-join description of that substitution), and
for template `node-shell-{node}` with node `worker-3` it is exactly
`node-shell-worker-3`. -/
theorem C7_pod_name_substitution (cfg : Config) (node : String) :
    newPodName cfg node
      = String.mk (joinWith node.toList (splitNode cfg.PodName.toList))
    ∧ newPodName { cfg with PodName := "node-shell-{node}" } "worker-3"
      = "node-shell-worker-3" := by
  constructor
  · rw [newPodName, replaceNode_eq_spec]
  · rfl

/-- C1 counterexample: with the node and namespace present, the initial pod
get answering not-found, and the create call failing with already-exists,
`start` returns the pod-create error even though every poll would have
reported `Running`: it does not fall through to polling. -/
theorem C1_counterexample_create_race_is_fatal :
    startRun
      { nodeRes := .found (), nsRes := .found (), podRes := .notFound
        createRes := .alreadyExists, poll := fun _ => .found phaseRunning } 60
      = (.error .podCreateError, 1)
    ∧ (pollPod (fun _ => .found phaseRunning) 0 60).1 = .ok () := by
  constructor <;> rfl

/-- C1 (amended): if the node and namespace exist, the initial pod get
reports not-found and the create call fails with already-exists, `start`
fails with the pod-create error (after exactly one create call); it does
not fall through to polling. -/
theorem C1_amended_create_race_fails (env : ClusterEnv) (fuel : Nat)
    (hn : env.nodeRes = .found ()) (hns : env.nsRes = .found ())
    (hp : env.podRes = .notFound) (hc : env.createRes = .alreadyExists) :
    startRun env fuel = (.error .podCreateError, 1) := by
  simp [startRun, hn, hns, hp, hc]

theorem C1_amended_witness :
    startRun
      { nodeRes := .found (), nsRes := .found (), podRes := .notFound
        createRes := .alreadyExists, poll := fun _ => .notFound } 7
      = (.error .podCreateError, 1) :=
  C1_amended_create_race_fails _ 7 rfl rfl rfl rfl

/-- C3: when the node and namespace exist and the pod is already found in
phase `Running`, `start` succeeds immediately with zero create calls (the
reuse path); in particular a second `ensureRunning` after the first one
created and started the pod performs no create call. -/
theorem C3_running_pod_reused (env : ClusterEnv) (fuel : Nat)
    (hn : env.nodeRes = .found ()) (hns : env.nsRes = .found ())
    (hp : env.podRes = .found phaseRunning) :
    startRun env fuel = (.ok (), 0) := by
  simp [startRun, hn, hns, hp]

theorem C3_witness :
    startRun
      { nodeRes := .found (), nsRes := .found (), podRes := .found phaseRunning
        createRes := .transportErr, poll := fun _ => .transportErr } 0
      = (.ok (), 0) :=
  C3_running_pod_reused _ 0 rfl rfl rfl

/-- C4: the pod specification built by `buildPod` has host networking, host
PID and host IPC enabled, exactly one container, which is privileged and
whose full command (command plus arguments) is
`nsenter -t 1 -m -u -i -n` followed by the configured pause command; with
the default pause command the full command is exactly
`nsenter -t 1 -m -u -i -n sleep infinity`. -/
theorem C4_pod_spec (node podName : String) (cfg : Config) :
    (buildPod node podName cfg).spec.HostNetwork = true ∧
    (buildPod node podName cfg).spec.HostPID = true ∧
    (buildPod node podName cfg).spec.HostIPC = true ∧
    (buildPod node podName cfg).spec.Containers.length = 1 ∧
    ((buildPod node podName cfg).spec.Containers.map
        fun c => c.SecContext.Privileged) = [true] ∧
    ((buildPod node podName cfg).spec.Containers.map
        fun c => c.Command ++ c.Args)
      = [["nsenter", "-t", "1", "-m", "-u", "-i", "-n"] ++ cfg.PauseCommand] ∧
    (cfg.PauseCommand = defaultPauseCommand →
      ((buildPod node podName cfg).spec.Containers.map
          fun c => c.Command ++ c.Args)
        = [["nsenter", "-t", "1", "-m", "-u", "-i", "-n", "sleep", "infinity"]]) := by
  refine ⟨rfl, rfl, rfl, rfl, rfl, rfl, fun h => ?_⟩
  simp [buildPod, h, defaultPauseCommand]

theorem C4_witness :
    ((buildPod "node-a" "node-shell-node-a" Config.Default).spec.Containers.map
        fun c => c.Command ++ c.Args)
      = [["nsenter", "-t", "1", "-m", "-u", "-i", "-n", "sleep", "infinity"]] :=
  (C4_pod_spec "node-a" "node-shell-node-a" Config.Default).2.2.2.2.2.2 rfl

/-- C5: if the delete call fails on the first 4 attempts and succeeds on
the 5th, `RetryClose` stops successfully after exactly 5 attempts and
exactly 4 inter-attempt delays; if all 5 attempts fail it stops after
exactly 5 attempts (its return type carries no error: failures are only
printed). -/
theorem C5_retry_close (del : Nat → DeleteResult) :
    ((∀ j, j < 4 → del j = .transportErr) → Close (del 4) = none →
      RetryClose del = (5, 4))
    ∧ ((∀ j, j < 5 → del j = .transportErr) → (RetryClose del).1 = 5) := by
  constructor
  · intro h4 h5
    have h0 := h4 0 (by omega)
    have h1 := h4 1 (by omega)
    have h2 := h4 2 (by omega)
    have h3 := h4 3 (by omega)
    cases hd : del 4 with
    | ok => simp [RetryClose, closeMaxRetry, retryCloseAux, h0, h1, h2, h3, hd, Close]
    | notFound => simp [RetryClose, closeMaxRetry, retryCloseAux, h0, h1, h2, h3, hd, Close]
    | transportErr => rw [hd] at h5; exact absurd h5 (by simp [Close])
  · intro h
    have h0 := h 0 (by omega)
    have h1 := h 1 (by omega)
    have h2 := h 2 (by omega)
    have h3 := h 3 (by omega)
    have h4 := h 4 (by omega)
    simp [RetryClose, closeMaxRetry, retryCloseAux, h0, h1, h2, h3, h4, Close]

theorem C5_witness :
    RetryClose (fun i => if i < 4 then .transportErr else .ok) = (5, 4) :=
  (C5_retry_close _).1 (fun j hj => if_pos hj) (by decide)

/-- C6: a delete answering not-found is immediate success for both teardown
variants: `Close` returns no error, and `RetryClose` makes exactly 1
attempt with no delays. -/
theorem C6_not_found_is_success (del : Nat → DeleteResult)
    (h : del 0 = .notFound) :
    Close (del 0) = none ∧ RetryClose del = (1, 0) := by
  constructor
  · rw [h]; rfl
  · simp [RetryClose, closeMaxRetry, retryCloseAux, h, Close]

theorem C6_witness :
    Close ((fun _ => DeleteResult.notFound) 0) = none
    ∧ RetryClose (fun _ => DeleteResult.notFound) = (1, 0) :=
  C6_not_found_is_success (fun _ => DeleteResult.notFound) rfl

/-- C8: defaulting is per-field: `Validate` replaces exactly the empty
fields by their built-in defaults and leaves every non-empty field
unchanged. -/
theorem C8_defaulting_per_field (c : Config) :
    ∃ c', Config.Validate c = .ok c'
      ∧ c'.Image = (if c.Image = "" then defaultImage else c.Image)
      ∧ c'.PauseCommand
          = (if c.PauseCommand = [] then defaultPauseCommand else c.PauseCommand)
      ∧ c'.ShellCommand
          = (if c.ShellCommand = [] then defaultShellCommand else c.ShellCommand)
      ∧ c'.PodNamespace
          = (if c.PodNamespace = "" then defaultPodNamespace else c.PodNamespace)
      ∧ c'.PodName = (if c.PodName = "" then defaultPodName else c.PodName) :=
  ⟨_, validate_eq c, rfl, rfl, rfl, rfl, rfl⟩

/-- C9: a missing config file makes `Load` return the full built-in default
record without error, and (given that the YAML decoder maps empty input to
the zero-value struct, as go-yaml does) an empty config file loads to the
same record. -/
theorem C9_missing_file_defaults (parse : String → Option Config) :
    Load .notExist parse = .ok Config.Default
    ∧ Config.Default.Image = defaultImage
    ∧ Config.Default.PauseCommand = defaultPauseCommand
    ∧ Config.Default.ShellCommand = defaultShellCommand
    ∧ Config.Default.PodNamespace = defaultPodNamespace
    ∧ Config.Default.PodName = defaultPodName
    ∧ (parse "" = some Config.zeroValue →
        Load (.content "") parse = .ok Config.Default) := by
  refine ⟨rfl, rfl, rfl, rfl, rfl, rfl, fun h => ?_⟩
  simp [Load, h, Config.Validate, Config.zeroValue, Config.Default]

theorem C9_witness :
    Load (.content "") (fun _ => some Config.zeroValue) = .ok Config.Default :=
  (C9_missing_file_defaults (fun _ => some Config.zeroValue)).2.2.2.2.2.2 rfl

/-- C10: `Validate` never fails (the validation-error outcome is
unreachable), and a non-empty pod name template without the placeholder
passes validation unchanged. -/
theorem C10_validate_never_fails (c : Config) :
    (∃ c', Config.Validate c = .ok c')
    ∧ (∀ e : ValidationError, Config.Validate c ≠ .error e)
    ∧ (c.PodName ≠ "" → containsNodePat c.PodName.toList = false →
        ∃ c', Config.Validate c = .ok c' ∧ c'.PodName = c.PodName) := by
  refine ⟨⟨_, validate_eq c⟩, fun e => e.rec, fun h _ => ⟨_, validate_eq c, ?_⟩⟩
  simp [h]

theorem pollPod_timeout (poll : Nat → GetResult String) :
    ∀ fuel i, (∀ j, j < fuel → transientRes (poll (i + j))) →
    pollPod poll i fuel = (.error .startupTimeout, fuel) := by
  intro fuel
  induction fuel with
  | zero => intro i _; rfl
  | succ n ih =>
    intro i h
    have hrest : ∀ j, j < n → transientRes (poll (i + 1 + j)) := by
      intro j hj
      have hx := h (j + 1) (by omega)
      have e : i + (j + 1) = i + 1 + j := by omega
      rwa [e] at hx
    have h0 := h 0 (by omega)
    rw [Nat.add_zero] at h0
    rcases h0 with h0 | ⟨ph, hph, hne⟩
    · simp [pollPod, h0, ih (i + 1) hrest]
    · simp [pollPod, hph, hne, ih (i + 1) hrest]

theorem pollPod_first_running (poll : Nat → GetResult String) :
    ∀ fuel i m, m < fuel → (∀ j, j < m → transientRes (poll (i + j))) →
    poll (i + m) = .found phaseRunning →
    pollPod poll i fuel = (.ok (), m + 1) := by
  intro fuel
  induction fuel with
  | zero => intro i m hm; omega
  | succ n ih =>
    intro i m hm htr hrun
    cases m with
    | zero =>
      rw [Nat.add_zero] at hrun
      simp [pollPod, hrun]
    | succ m' =>
      have hrest : ∀ j, j < m' → transientRes (poll (i + 1 + j)) := by
        intro j hj
        have hx := htr (j + 1) (by omega)
        have e : i + (j + 1) = i + 1 + j := by omega
        rwa [e] at hx
      have hrun' : poll (i + 1 + m') = .found phaseRunning := by
        have e : i + (m' + 1) = i + 1 + m' := by omega
        rwa [e] at hrun
      have h0 := htr 0 (by omega)
      rw [Nat.add_zero] at h0
      have ihx := ih (i + 1) m' (by omega) hrest hrun'
      rcases h0 with h0 | ⟨ph, hph, hne⟩
      · simp [pollPod, h0, ihx]
      · simp [pollPod, hph, hne, ihx]

theorem pollPod_first_transport_err (poll : Nat → GetResult String) :
    ∀ fuel i m, m < fuel → (∀ j, j < m → transientRes (poll (i + j))) →
    poll (i + m) = .transportErr →
    pollPod poll i fuel = (.error .pollGetPodError, m + 1) := by
  intro fuel
  induction fuel with
  | zero => intro i m hm; omega
  | succ n ih =>
    intro i m hm htr herr
    cases m with
    | zero =>
      rw [Nat.add_zero] at herr
      simp [pollPod, herr]
    | succ m' =>
      have hrest : ∀ j, j < m' → transientRes (poll (i + 1 + j)) := by
        intro j hj
        have hx := htr (j + 1) (by omega)
        have e : i + (j + 1) = i + 1 + j := by omega
        rwa [e] at hx
      have herr' : poll (i + 1 + m') = .transportErr := by
        have e : i + (m' + 1) = i + 1 + m' := by omega
        rwa [e] at herr
      have h0 := htr 0 (by omega)
      rw [Nat.add_zero] at h0
      have ihx := ih (i + 1) m' (by omega) hrest herr'
      rcases h0 with h0 | ⟨ph, hph, hne⟩
      · simp [pollPod, h0, ihx]
      · simp [pollPod, hph, hne, ihx]

/-- The poll loop only looks at the poll results of its `fuel` ticks: in
particular, after the timeout fires no further cluster calls influence the
outcome. -/
theorem pollPod_congr (poll poll' : Nat → GetResult String) :
    ∀ fuel i, (∀ j, j < fuel → poll' (i + j) = poll (i + j)) →
    pollPod poll' i fuel = pollPod poll i fuel := by
  intro fuel
  induction fuel with
  | zero => intro i _; rfl
  | succ n ih =>
    intro i h
    have h0 : poll' i = poll i := by
      have hx := h 0 (by omega)
      rwa [Nat.add_zero] at hx
    have hrest : ∀ j, j < n → poll' (i + 1 + j) = poll (i + 1 + j) := by
      intro j hj
      have hx := h (j + 1) (by omega)
      have e : i + (j + 1) = i + 1 + j := by omega
      rwa [e] at hx
    cases hp : poll i with
    | transportErr => simp [pollPod, h0, hp]
    | notFound => simp [pollPod, h0, hp, ih (i + 1) hrest]
    | found ph =>
      by_cases hr : ph = phaseRunning
      · simp [pollPod, h0, hp, hr]
      · simp [pollPod, h0, hp, hr, ih (i + 1) hrest]

/-- C2: the polling phase, for every sequence of poll results: while only
transient results (not-found, or a phase other than `Running`) are seen the
loop keeps retrying, so all-transient results for the whole window yield
the startup-timeout error after exactly `fuel` get calls; the first
`Running` result ends the loop successfully at once (after `m + 1` calls,
no further sleeping); a transport error at the first non-transient tick is
fatal; and the outcome never depends on poll results beyond the timeout
window. -/
theorem C2_polling (poll : Nat → GetResult String) (i fuel : Nat) :
    ((∀ j, j < fuel → transientRes (poll (i + j))) →
      pollPod poll i fuel = (.error .startupTimeout, fuel))
    ∧ (∀ m, m < fuel → (∀ j, j < m → transientRes (poll (i + j))) →
        poll (i + m) = .found phaseRunning →
        pollPod poll i fuel = (.ok (), m + 1))
    ∧ (∀ m, m < fuel → (∀ j, j < m → transientRes (poll (i + j))) →
        poll (i + m) = .transportErr →
        pollPod poll i fuel = (.error .pollGetPodError, m + 1))
    ∧ (∀ poll', (∀ j, j < fuel → poll' (i + j) = poll (i + j)) →
        pollPod poll' i fuel = pollPod poll i fuel) :=
  ⟨pollPod_timeout poll fuel i,
   fun m hm => pollPod_first_running poll fuel i m hm,
   fun m hm => pollPod_first_transport_err poll fuel i m hm,
   fun poll' h => pollPod_congr poll poll' fuel i h⟩

theorem C2_witness :
    pollPod (fun j => if j = 0 then .notFound else .found phaseRunning) 0 60
      = (.ok (), 2) :=
  (C2_polling (fun j => if j = 0 then .notFound else .found phaseRunning)
      0 60).2.1 1 (by omega)
    (fun j hj => by
      interval_cases j
      exact Or.inl rfl)
    rfl

theorem C10_witness :
    ∃ c', Config.Validate
        { Image := "img", PauseCommand := ["sleep"], ShellCommand := ["sh"]
          PodNamespace := "ns", PodName := "mypod" } = .ok c'
      ∧ c'.PodName = "mypod" :=
  (C10_validate_never_fails _).2.2 (by decide) (by decide)

end Kubesh
